import Mathlib

/-!
Shallow embedding of the SEO audit engine in `audit.py` (class `Auditor`):
path resolution, per-page checks, link-graph construction, orphan analysis,
external-link classification and score aggregation.

Machine-level details that do not matter here (stdout printing, the
concurrent thread pool, the HTML parser) are abstracted: pages arrive
pre-parsed as `PageData` (or `none` for a parse failure), and the network
is a function from URL to `ProbeResult`.  The `deductions` field of
`AuditState` is a ghost ledger: every time the source mutates `score`
downward, the embedding additionally records the amount; no control flow
reads it.
-/

namespace Audit

/-! ### String helpers

Char-list implementations of the Python string operations used by the
source (`strip`, `startswith`, `endswith`, `in`, `split`, `lstrip`,
`replace(_, '', 1)`), written with structural recursion so the kernel can
evaluate them. -/

def pyIsSpace (c : Char) : Bool :=
  c = ' ' || c = '\t' || c = '\n' || c = '\r' || c = '\x0b' || c = '\x0c'

/-- Python `str.strip()`. -/
def pyStrip (s : String) : String :=
  String.mk (((s.data.dropWhile pyIsSpace).reverse.dropWhile pyIsSpace).reverse)

/-- Python `str.startswith`. -/
def strStartsWith (s p : String) : Bool := p.data.isPrefixOf s.data

/-- Python `str.endswith`. -/
def strEndsWith (s p : String) : Bool := p.data.isSuffixOf s.data

/-- Substring search on char lists. -/
def strContainsAux (pat : List Char) : List Char → Bool
  | [] => pat.isEmpty
  | x :: xs => pat.isPrefixOf (x :: xs) || strContainsAux pat xs

/-- Python `sub in s`. -/
def strContains (s sub : String) : Bool := strContainsAux sub.data s.data

/-- Python `link_href.split('?')[0].split('#')[0]`: keep everything before the
first `?`, then before the first `#` of that. -/
def stripQueryFragment (s : String) : String :=
  String.mk ((s.data.takeWhile (fun c => c ≠ '?')).takeWhile (fun c => c ≠ '#'))

/-- Split a char list on a separator character (Python `str.split(c)`:
`""` gives `[""]`, separators at the ends give empty pieces). -/
def splitChar (c : Char) : List Char → List (List Char)
  | [] => [[]]
  | x :: xs =>
    let r := splitChar c xs
    if x = c then [] :: r
    else
      match r with
      | [] => [[x]]
      | y :: ys => (x :: y) :: ys

/-- Split a URL path into `/`-separated components. -/
def splitSlash (s : String) : List String := (splitChar '/' s.data).map String.mk

/-- Python `str.lstrip('/')`. -/
def dropLeadingSlashes (s : String) : String :=
  String.mk (s.data.dropWhile (fun c => c = '/'))

/-- Remove the first occurrence of `pat` (Python `s.replace(pat, '', 1)`). -/
def replaceFirstAux (pat : List Char) : List Char → List Char
  | [] => []
  | x :: xs =>
    if pat.isPrefixOf (x :: xs) then (x :: xs).drop pat.length
    else x :: replaceFirstAux pat xs

def replaceFirst (s pat : String) : String := String.mk (replaceFirstAux pat.data s.data)

/-- Python `', '.join`. -/
def joinComma : List String → String
  | [] => ""
  | [x] => x
  | x :: y :: ys => x ++ ", " ++ joinComma (y :: ys)

/-- Python `'/'.join`, used to render a relative path for report messages. -/
def joinSlash : List String → String
  | [] => ""
  | [x] => x
  | x :: y :: ys => x ++ "/" ++ joinSlash (y :: ys)

/-! ### Filesystem and path model

A POSIX path is a list of components below the filesystem root; the audit
root directory (`os.path.abspath(root_dir)`) is itself such a list.  The
filesystem is the pair of predicates the source consults, `os.path.isfile`
and `os.path.isdir`, given by finite lists of paths. -/

structure FS where
  files : List (List String)
  dirs : List (List String)
deriving DecidableEq

def FS.isfile (fs : FS) (p : List String) : Bool := fs.files.contains p

def FS.isdir (fs : FS) (p : List String) : Bool := fs.dirs.contains p

/-- Behaviour of `os.path.normpath` on an absolute path given as components: drop empty
components and `.`, resolve `..` against the previous component (at the
filesystem root, `..` is dropped, as normpath does for absolute paths). -/
def normComponents (cs : List String) : List String :=
  cs.foldl
    (fun acc c =>
      if c = "" || c = "." then acc
      else if c = ".." then acc.dropLast
      else acc ++ [c])
    []

/-- Python `potential_path + '.html'`: string concatenation onto the final
component. -/
def appendHtml (p : List String) : List String :=
  p.dropLast ++ [p.getLastD "" ++ ".html"]

/-- The normalized candidate path of `Auditor.resolve_local_path` before
the existence tiers: strip query/fragment, join root-relative hrefs to the
site root (after `lstrip('/')`) and other hrefs to the source page's
directory, then normalize. -/
def target_path (root current_file : List String) (link_href : String) : List String :=
  let url_path := stripQueryFragment link_href
  let potential_path :=
    if strStartsWith url_path "/" then root ++ splitSlash (dropLeadingSlashes url_path)
    else current_file.dropLast ++ splitSlash url_path
  normComponents potential_path

/-- Embeds `Auditor.resolve_local_path`: the four existence tiers, first match
wins; on no match the normalized path is returned with `false`. -/
def resolve_local_path (fs : FS) (root current_file : List String) (link_href : String) :
    List String × Bool :=
  let p := target_path root current_file link_href
  if fs.isfile p then (p, true)
  else if fs.isdir p && fs.isfile (p ++ ["index.html"]) then (p ++ ["index.html"], true)
  else if fs.isfile (appendHtml p) then (appendHtml p, true)
  else if fs.isfile (p ++ ["index.html"]) then (p ++ ["index.html"], true)
  else (p, false)

/-! ### Configuration -/

structure AutoConfig where
  base_url : Option String
  ignore_urls_prefixes : List String
  ignore_urls_substrings : List String
  ignore_files : List String
  ignore_files_substrings : List String
deriving DecidableEq

/-- The hard-coded `AutoConfig` defaults of the source, with the base URL
supplied by detection. -/
def defaultConfig (base : Option String) : AutoConfig where
  base_url := base
  ignore_urls_prefixes := ["/go/", "javascript:", "mailto:", "#"]
  ignore_urls_substrings := ["cdn-cgi"]
  ignore_files := ["404.html"]
  ignore_files_substrings := ["google"]

def is_ignored_file (cfg : AutoConfig) (filename : String) : Bool :=
  cfg.ignore_files.contains filename
    || cfg.ignore_files_substrings.any (fun sub => strContains filename sub)

def is_ignored_url (cfg : AutoConfig) (url : String) : Bool :=
  cfg.ignore_urls_prefixes.any (fun p => strStartsWith url p)
    || cfg.ignore_urls_substrings.any (fun sub => strContains url sub)

/-- Truthiness of `self.config.base_url and href.startswith(self.config.base_url)`. -/
def base_matches (cfg : AutoConfig) (href : String) : Bool :=
  match cfg.base_url with
  | none => false
  | some b => !(b = "") && strStartsWith href b

/-! ### Audit state and `Auditor.log` -/

inductive Severity
  | ERROR
  | WARN
  | SUCCESS
  | INFO
deriving DecidableEq

structure AuditState where
  score : Int
  issues : List (Severity × String)
  graph : List (List String × List String)
  dead_links : List String
  external_links : List String
  orphan_pages : List String
  deductions : List Int
deriving DecidableEq

def initState : AuditState where
  score := 100
  issues := []
  graph := []
  dead_links := []
  external_links := []
  orphan_pages := []
  deductions := []

/-- Python `(5 if 'Orphan' in message else 2)`. -/
def warn_amount (message : String) : Int :=
  if strContains message "Orphan" then 5 else 2

/-- Embeds `Auditor.log`: an ERROR costs 10 (unclamped); a WARN costs 2, or 5 when
the message mentions an orphan, clamped at 0 on the spot; ERROR and WARN
findings are appended to the issue ledger. -/
def log (st : AuditState) (type : Severity) (message : String) : AuditState :=
  let st2 :=
    if type = Severity.ERROR then
      { st with score := st.score - 10, deductions := st.deductions ++ [10] }
    else if type = Severity.WARN then
      { st with
        score := max 0 (st.score - warn_amount message)
        deductions := st.deductions ++ [warn_amount message] }
    else st
  if type = Severity.ERROR ∨ type = Severity.WARN then
    { st2 with issues := st2.issues ++ [(type, message)] }
  else st2

/-! ### Pages and `Auditor.check_file`

A page is its absolute path plus the outcome of parsing it: `none` when
`BeautifulSoup`/file reading raised (the `except` arm of `check_file`),
otherwise the parts of the DOM the checks consult: the number of `<h1>`
tags, whether an `ld+json` script is present, and the anchors in document
order (href plus the tokenized `rel` attribute). -/

structure Anchor where
  href : String
  rel : List String
deriving DecidableEq

structure PageData where
  h1_count : Nat
  has_schema : Bool
  anchors : List Anchor
deriving DecidableEq

structure Page where
  path : List String
  parsed : Option PageData
deriving DecidableEq

/-- Python `os.path.relpath(file_path, root_dir)` for files beneath the root,
where it is the root-relative suffix. -/
def relPathOf (root p : List String) : String := joinSlash (p.drop root.length)

/-- The `<h1>` check of `check_file`: zero tags logs an ERROR and applies
the explicit extra `self.score -= 5`; more than one logs a WARN. -/
def h1_check (st : AuditState) (rel_path : String) (d : PageData) : AuditState :=
  if d.h1_count = 0 then
    let st2 := log st Severity.ERROR (rel_path ++ ": Missing <h1> tag (-5 pts)")
    { st2 with score := st2.score - 5, deductions := st2.deductions ++ [5] }
  else if 1 < d.h1_count then
    log st Severity.WARN (rel_path ++ ": Multiple <h1> tags found (-2 pts)")
  else st

/-- The schema check of `check_file`. -/
def schema_check (st : AuditState) (rel_path : String) (d : PageData) : AuditState :=
  if d.has_schema then st
  else log st Severity.WARN (rel_path ++ ": Missing Schema Markup (-2 pts)")

/-- The absolute-internal branch of the link loop: warn about the style,
strip the base URL, force a leading slash, re-resolve; success records a
link edge, failure logs a dead-link ERROR and records the original href. -/
def abs_internal_check (fs : FS) (root file_path : List String) (rel_path : String)
    (base : String) (st : AuditState) (href : String) : AuditState :=
  let st := log st Severity.WARN
    (rel_path ++ ": Absolute internal link found: " ++ href ++ " -> Use path instead (e.g. /blog)")
  let path_part := replaceFirst href base
  let path_part := if strStartsWith path_part "/" then path_part else "/" ++ path_part
  let r := resolve_local_path fs root file_path path_part
  if r.2 then { st with graph := st.graph ++ [(r.1, file_path)] }
  else
    let st := log st Severity.ERROR (rel_path ++ ": Dead Link (Internal Absolute): " ++ href)
    { st with dead_links := st.dead_links ++ [href] }

/-- The truly-external branch: record the URL into the deduplicated set and
warn when any of the three protective `rel` values is missing. -/
def external_rel_check (rel_path : String) (st : AuditState) (href : String)
    (relAttr : List String) : AuditState :=
  let st :=
    { st with
      external_links :=
        if st.external_links.contains href then st.external_links
        else st.external_links ++ [href] }
  let missing :=
    (if relAttr.contains "nofollow" then [] else ["nofollow"])
      ++ (if relAttr.contains "noopener" then [] else ["noopener"])
      ++ (if relAttr.contains "noreferrer" then [] else ["noreferrer"])
  if missing = [] then st
  else
    log st Severity.WARN
      (rel_path ++ ": External link " ++ href ++ " missing protection: "
        ++ joinComma missing ++ " -> Risk of weight loss")

/-- Relative-path style warning of the internal-link branch. -/
def warn_relative (rel_path : String) (st : AuditState) (href : String) : AuditState :=
  if strStartsWith href "/" then st
  else
    log st Severity.WARN
      (rel_path ++ ": Relative path used: " ++ href ++ " -> Should be absolute (e.g. /blog/post)")

/-- Extension style warning (`.html` suffix) of the internal-link branch. -/
def warn_extension (rel_path : String) (st : AuditState) (href : String) : AuditState :=
  if strEndsWith href ".html" then
    log st Severity.WARN
      (rel_path ++ ": .html extension used: " ++ href ++ " -> Should be Clean URL")
  else st

/-- The internal-link branch: style warnings, then resolution; success
records a link edge, failure logs a dead-link ERROR and records the href. -/
def internal_link_check (fs : FS) (root file_path : List String) (rel_path : String)
    (st : AuditState) (href : String) : AuditState :=
  let st := warn_relative rel_path st href
  let st := warn_extension rel_path st href
  let r := resolve_local_path fs root file_path href
  if r.2 then { st with graph := st.graph ++ [(r.1, file_path)] }
  else
    let st := log st Severity.ERROR (rel_path ++ ": Dead Link: " ++ href)
    { st with dead_links := st.dead_links ++ [href] }

/-- One iteration of the anchor loop in `check_file`. -/
def process_anchor (cfg : AutoConfig) (fs : FS) (root file_path : List String)
    (rel_path : String) (st : AuditState) (a : Anchor) : AuditState :=
  let href := pyStrip a.href
  if href = "" then st
  else if is_ignored_url cfg href then st
  else if strStartsWith href "http://" || strStartsWith href "https://" then
    if base_matches cfg href then
      abs_internal_check fs root file_path rel_path (cfg.base_url.getD "") st href
    else external_rel_check rel_path st href a.rel
  else internal_link_check fs root file_path rel_path st href

/-- Embeds `Auditor.check_file`: a parse failure leaves the audit state untouched
(the source only prints the exception); otherwise the heading check, the
schema check and the anchor loop run in order. -/
def check_file (cfg : AutoConfig) (fs : FS) (root : List String)
    (st : AuditState) (pg : Page) : AuditState :=
  match pg.parsed with
  | none => st
  | some d =>
    let rel_path := relPathOf root pg.path
    let st1 := h1_check st rel_path d
    let st2 := schema_check st1 rel_path d
    d.anchors.foldl (process_anchor cfg fs root pg.path rel_path) st2

/-! ### `Auditor.check_external_links`

The network environment is a function from URL to outcome; the thread pool
only changes completion order, which the claims do not depend on, so the
fold visits the deduplicated URL set in collection order. -/

inductive ProbeResult
  | status (code : Nat)
  | timeout
  | connectionError
  | otherError (msg : String)
deriving DecidableEq

/-- The inner `check_url` closure: bad statuses demand a deduction, every
failure mode is exempt, good statuses produce no result. -/
def check_url (url : String) (r : ProbeResult) : Option (String × String × Bool) :=
  match r with
  | ProbeResult.status code =>
    if 400 ≤ code then some (url, "Status " ++ Nat.repr code, true) else none
  | ProbeResult.timeout => some (url, "Timeout (Network Limit?)", false)
  | ProbeResult.connectionError => some (url, "Connection Error (Network Limit?)", false)
  | ProbeResult.otherError e => some (url, e, false)

/-- The result-collection arm of `check_external_links`: a deducting result
logs an ERROR and applies the explicit extra `self.score -= 5`; a
non-deducting result logs a WARN. -/
def handle_check_result (st : AuditState) (res : Option (String × String × Bool)) : AuditState :=
  match res with
  | none => st
  | some (url, error, should_deduct) =>
    if should_deduct then
      let st2 := log st Severity.ERROR ("Broken External Link: " ++ url ++ " (" ++ error ++ ") (-5 pts)")
      { st2 with score := st2.score - 5, deductions := st2.deductions ++ [5] }
    else
      log st Severity.WARN
        ("External Link Unreachable: " ++ url ++ " (" ++ error
          ++ ") - Skipped deduction (Likely Network Issue)")

def check_external_links (net : String → ProbeResult) (st : AuditState) : AuditState :=
  st.external_links.foldl (fun s url => handle_check_result s (check_url url (net url))) st

/-! ### `Auditor.analyze_structure` -/

def orphanMsg (rel_path : String) : String :=
  "Orphan Page (No incoming links): " ++ rel_path ++ " (-5 pts)"

/-- One iteration of the orphan loop: skip pages that are link targets, the
canonical index name, ignore-listed files and the root index; otherwise log
the orphan WARN and record the page. -/
def orphan_step (cfg : AutoConfig) (root : List String) (referenced : List (List String))
    (st : AuditState) (f : List String) : AuditState :=
  if referenced.contains f then st
  else
    let filename := f.getLastD ""
    if filename = "index.html" || is_ignored_file cfg filename then st
    else if f = root ++ ["index.html"] then st
    else
      let rel_path := relPathOf root f
      let st2 := log st Severity.WARN (orphanMsg rel_path)
      { st2 with orphan_pages := st2.orphan_pages ++ [rel_path] }

/-- The orphan part of `analyze_structure` (the top-pages listing only
prints).  The reference set is the set of link-graph targets, computed once
before the loop. -/
def analyze_structure (cfg : AutoConfig) (root : List String)
    (files : List (List String)) (st : AuditState) : AuditState :=
  files.foldl (orphan_step cfg root (st.graph.map Prod.fst)) st

/-- Inbound-link count of a target in the graph: the length of its source
list, i.e. the number of edges whose target it is. -/
def inbound_count (st : AuditState) (target : List String) : Nat :=
  (st.graph.filter (fun e => e.1 = target)).length

/-! ### `Auditor.run` -/

/-- Embeds `Auditor.run`: inspect every discovered page in order, analyze the
structure, probe external links, then clamp the score at 0 for the final
report. -/
def run (cfg : AutoConfig) (fs : FS) (root : List String) (net : String → ProbeResult)
    (pages : List Page) : AuditState :=
  let st1 := pages.foldl (check_file cfg fs root) initState
  let st2 := analyze_structure cfg root (pages.map Page.path) st1
  let st3 := check_external_links net st2
  { st3 with score := max 0 st3.score }

/-- The spec's `clamp(x, lo, hi)`. -/
def clamp (x lo hi : Int) : Int := max lo (min hi x)

/-! ### Score evolution

Every mutation of `score` in the source is either an unclamped subtraction
(`score -= d`) or a clamped one (`score = max(0, score - d)`), always by a
non-negative amount, and the ghost ledger records exactly those amounts.
`Evolves` packages this; `applySteps_max` below is the arithmetic heart of
the score invariant: clamping along the way cannot change the finally
clamped value when all amounts are non-negative. -/

inductive ScoreStep
  | plain (d : Int)
  | clamped (d : Int)

def applyStep (s : Int) : ScoreStep → Int
  | ScoreStep.plain d => s - d
  | ScoreStep.clamped d => max 0 (s - d)

def stepAmount : ScoreStep → Int
  | ScoreStep.plain d => d
  | ScoreStep.clamped d => d

def applySteps (s : Int) (l : List ScoreStep) : Int := l.foldl applyStep s

def Evolves (st st' : AuditState) : Prop :=
  ∃ steps : List ScoreStep,
    (∀ x ∈ steps, 0 ≤ stepAmount x)
      ∧ st'.score = applySteps st.score steps
      ∧ st'.deductions = st.deductions ++ steps.map stepAmount

/-! ### Spec-side resolver (for claim C5)

The four resolution tiers exactly as the spec words them, as an ordered
candidate list: exact file; existing directory containing `index.html`;
path plus `.html`; nested `path/index.html`. -/

def spec_candidates (fs : FS) (p : List String) : List (List String) :=
  (if fs.isfile p then [p] else [])
    ++ (if fs.isdir p ∧ fs.isfile (p ++ ["index.html"]) then [p ++ ["index.html"]] else [])
    ++ (if fs.isfile (appendHtml p) then [appendHtml p] else [])
    ++ (if fs.isfile (p ++ ["index.html"]) then [p ++ ["index.html"]] else [])

/-- Resolution as described by the spec: normalize, then return the first
matching tier with `exists = true`, or the normalized path with
`exists = false` when no tier matches. -/
def resolve_spec (fs : FS) (root current_file : List String) (link_href : String) :
    List String × Bool :=
  let p := target_path root current_file link_href
  match spec_candidates fs p with
  | [] => (p, false)
  | c :: _ => (c, true)

/-! ### Orphan condition (for claim C7) -/

/-- The orphan condition of the loop in `analyze_structure`, as a single
boolean: not a link target, filename neither the canonical index name nor
ignore-listed, and not the root index. -/
def orphanCond (cfg : AutoConfig) (root : List String) (referenced : List (List String))
    (f : List String) : Bool :=
  !referenced.contains f
    && !(f.getLastD "" = "index.html" || is_ignored_file cfg (f.getLastD ""))
    && !(f = root ++ ["index.html"])

/-- What the orphan loop does to the state for a page it reports. -/
def orphan_apply (root : List String) (st : AuditState) (f : List String) : AuditState :=
  let rel_path := relPathOf root f
  let st2 := log st Severity.WARN (orphanMsg rel_path)
  { st2 with orphan_pages := st2.orphan_pages ++ [rel_path] }

/-! ### Concrete fixtures used by counterexamples and witnesses -/

def cfgCE : AutoConfig := defaultConfig (some "https://example.com")

def rootCE : List String := ["site"]

def fsCE : FS where
  files := [["site", "index.html"], ["site", "blog", "post.html"]]
  dirs := [["site"], ["site", "blog"]]

def dCE : PageData := { h1_count := 0, has_schema := false, anchors := [] }

def noH1Page (n : String) : Page := { path := ["site", n], parsed := some dCE }

def sixPagesCE : List Page :=
  [noH1Page "a1.html", noH1Page "a2.html", noH1Page "a3.html",
   noH1Page "a4.html", noH1Page "a5.html", noH1Page "a6.html"]

def st6CE : AuditState := sixPagesCE.foldl (check_file cfgCE fsCE rootCE) initState

def st7aCE : AuditState := h1_check st6CE "a7.html" dCE

def st7bCE : AuditState := schema_check st7aCE "a7.html" dCE

def netStatus404 : String → ProbeResult := fun _ => ProbeResult.status 404

def stBroken : AuditState := { initState with external_links := ["https://example.org/a"] }

def netTimeout : String → ProbeResult := fun _ => ProbeResult.timeout

def stUnreachable : AuditState := { initState with external_links := ["https://example.net/b"] }

/-! ### Basic lemmas about `log` -/

theorem log_ERROR (st : AuditState) (m : String) :
    log st Severity.ERROR m =
      { st with
        score := st.score - 10
        issues := st.issues ++ [(Severity.ERROR, m)]
        deductions := st.deductions ++ [10] } := rfl

theorem log_WARN (st : AuditState) (m : String) :
    log st Severity.WARN m =
      { st with
        score := max 0 (st.score - warn_amount m)
        issues := st.issues ++ [(Severity.WARN, m)]
        deductions := st.deductions ++ [warn_amount m] } := rfl

theorem log_SUCCESS (st : AuditState) (m : String) : log st Severity.SUCCESS m = st := rfl

theorem log_INFO (st : AuditState) (m : String) : log st Severity.INFO m = st := rfl

theorem warn_amount_nonneg (m : String) : 0 ≤ warn_amount m := by
  unfold warn_amount; split <;> norm_num

theorem log_graph (st : AuditState) (t : Severity) (m : String) :
    (log st t m).graph = st.graph := by
  cases t <;> simp [log_ERROR, log_WARN, log_SUCCESS, log_INFO]

theorem log_dead_links (st : AuditState) (t : Severity) (m : String) :
    (log st t m).dead_links = st.dead_links := by
  cases t <;> simp [log_ERROR, log_WARN, log_SUCCESS, log_INFO]

/-! ### Substring facts used by the orphan scoring rule -/

theorem isPrefixOf_append {p a : List Char} (b : List Char) (h : p.isPrefixOf a = true) :
    p.isPrefixOf (a ++ b) = true := by
  induction p generalizing a with
  | nil => cases a ++ b <;> simp [List.isPrefixOf]
  | cons x xs ih =>
    cases a with
    | nil => simp [List.isPrefixOf] at h
    | cons y ys =>
      simp only [List.cons_append, List.isPrefixOf, Bool.and_eq_true] at h ⊢
      exact ⟨h.1, ih h.2⟩

theorem strContainsAux_of_isPrefixOf {p l : List Char} (h : p.isPrefixOf l = true) :
    strContainsAux p l = true := by
  cases l with
  | nil =>
    cases p with
    | nil => rfl
    | cons x xs => simp [List.isPrefixOf] at h
  | cons x xs => simp [strContainsAux, h]

theorem string_data_append (s t : String) : (s ++ t).data = s.data ++ t.data := by
  cases s; cases t; rfl

theorem strContains_orphanMsg (rel_path : String) :
    strContains (orphanMsg rel_path) "Orphan" = true := by
  unfold strContains orphanMsg
  rw [string_data_append, string_data_append, List.append_assoc]
  exact strContainsAux_of_isPrefixOf (isPrefixOf_append _ (by decide))

theorem warn_amount_orphanMsg (rel_path : String) : warn_amount (orphanMsg rel_path) = 5 := by
  simp [warn_amount, strContains_orphanMsg]

theorem applySteps_append (s : Int) (l1 l2 : List ScoreStep) :
    applySteps s (l1 ++ l2) = applySteps (applySteps s l1) l2 := by
  simp [applySteps, List.foldl_append]

theorem evolves_refl (st : AuditState) : Evolves st st :=
  ⟨[], by simp, by simp [applySteps], by simp⟩

theorem evolves_of_eq {st st' : AuditState} (h1 : st'.score = st.score)
    (h2 : st'.deductions = st.deductions) : Evolves st st' :=
  ⟨[], by simp, by simp [applySteps, h1], by simp [h2]⟩

theorem evolves_trans {a b c : AuditState} (h1 : Evolves a b) (h2 : Evolves b c) :
    Evolves a c := by
  obtain ⟨l1, n1, s1, d1⟩ := h1
  obtain ⟨l2, n2, s2, d2⟩ := h2
  refine ⟨l1 ++ l2, ?_, ?_, ?_⟩
  · intro x hx
    rcases List.mem_append.1 hx with h | h
    exacts [n1 x h, n2 x h]
  · rw [applySteps_append, ← s1, s2]
  · rw [d2, d1, List.map_append, List.append_assoc]

theorem evolves_plain {st st' : AuditState} (d : Int) (hd : 0 ≤ d)
    (h1 : st'.score = st.score - d) (h2 : st'.deductions = st.deductions ++ [d]) :
    Evolves st st' := by
  refine ⟨[ScoreStep.plain d], ?_, ?_, ?_⟩
  · intro x hx; simp at hx; subst hx; simpa [stepAmount]
  · simp [applySteps, applyStep, h1]
  · simp [h2, stepAmount]

theorem evolves_clamped {st st' : AuditState} (d : Int) (hd : 0 ≤ d)
    (h1 : st'.score = max 0 (st.score - d)) (h2 : st'.deductions = st.deductions ++ [d]) :
    Evolves st st' := by
  refine ⟨[ScoreStep.clamped d], ?_, ?_, ?_⟩
  · intro x hx; simp at hx; subst hx; simpa [stepAmount]
  · simp [applySteps, applyStep, h1]
  · simp [h2, stepAmount]

theorem evolves_log (st : AuditState) (t : Severity) (m : String) : Evolves st (log st t m) := by
  cases t with
  | ERROR => exact evolves_plain 10 (by norm_num) (by rw [log_ERROR]) (by rw [log_ERROR])
  | WARN =>
    exact evolves_clamped (warn_amount m) (warn_amount_nonneg m) (by rw [log_WARN]) (by rw [log_WARN])
  | SUCCESS => exact evolves_of_eq (by rw [log_SUCCESS]) (by rw [log_SUCCESS])
  | INFO => exact evolves_of_eq (by rw [log_INFO]) (by rw [log_INFO])

theorem evolves_foldl {α : Type} (f : AuditState → α → AuditState)
    (h : ∀ st a, Evolves st (f st a)) :
    ∀ (l : List α) (st : AuditState), Evolves st (l.foldl f st) := by
  intro l
  induction l with
  | nil => intro st; exact evolves_refl st
  | cons a l ih =>
    intro st
    rw [List.foldl_cons]
    exact evolves_trans (h st a) (ih (f st a))

theorem applySteps_max (l : List ScoreStep) (h : ∀ x ∈ l, 0 ≤ stepAmount x) :
    ∀ s : Int, max 0 (applySteps s l) = max 0 (s - (l.map stepAmount).sum) := by
  induction l with
  | nil => intro s; simp [applySteps]
  | cons x l ih =>
    intro s
    have hx : 0 ≤ stepAmount x := h x (by simp)
    have hl : ∀ y ∈ l, 0 ≤ stepAmount y := fun y hy => h y (by simp [hy])
    have hsum : 0 ≤ (l.map stepAmount).sum := by
      refine List.sum_nonneg ?_
      intro a ha
      obtain ⟨y, hy, rfl⟩ := List.mem_map.1 ha
      exact hl y hy
    have hstep : applySteps s (x :: l) = applySteps (applyStep s x) l := by
      simp [applySteps]
    rw [hstep, ih hl (applyStep s x)]
    cases x with
    | plain d =>
      simp only [applyStep, stepAmount, List.map_cons, List.sum_cons]
      omega
    | clamped d =>
      simp only [applyStep, stepAmount, List.map_cons, List.sum_cons] at hx ⊢
      omega

theorem evolves_ite {st A B : AuditState} {c : Prop} [Decidable c]
    (h1 : Evolves st A) (h2 : Evolves st B) : Evolves st (if c then A else B) := by
  split
  · exact h1
  · exact h2

theorem evolves_h1_check (st : AuditState) (rel_path : String) (d : PageData) :
    Evolves st (h1_check st rel_path d) := by
  simp only [h1_check]
  split
  · exact evolves_trans (evolves_log st Severity.ERROR _) (evolves_plain 5 (by norm_num) rfl rfl)
  · split
    · exact evolves_log st Severity.WARN _
    · exact evolves_refl st

theorem evolves_schema_check (st : AuditState) (rel_path : String) (d : PageData) :
    Evolves st (schema_check st rel_path d) := by
  simp only [schema_check]
  split
  · exact evolves_refl st
  · exact evolves_log st Severity.WARN _

theorem evolves_warn_relative (rel_path : String) (st : AuditState) (href : String) :
    Evolves st (warn_relative rel_path st href) := by
  simp only [warn_relative]
  split
  · exact evolves_refl st
  · exact evolves_log st Severity.WARN _

theorem evolves_warn_extension (rel_path : String) (st : AuditState) (href : String) :
    Evolves st (warn_extension rel_path st href) := by
  simp only [warn_extension]
  split
  · exact evolves_log st Severity.WARN _
  · exact evolves_refl st

theorem evolves_internal_link_check (fs : FS) (root file_path : List String)
    (rel_path : String) (st : AuditState) (href : String) :
    Evolves st (internal_link_check fs root file_path rel_path st href) := by
  simp only [internal_link_check]
  apply evolves_trans (evolves_warn_relative rel_path st href)
  apply evolves_trans (evolves_warn_extension rel_path _ href)
  apply evolves_ite
  · exact evolves_of_eq rfl rfl
  · apply evolves_trans (evolves_log _ Severity.ERROR (rel_path ++ ": Dead Link: " ++ href))
    exact evolves_of_eq rfl rfl

theorem evolves_abs_internal_check (fs : FS) (root file_path : List String)
    (rel_path base : String) (st : AuditState) (href : String) :
    Evolves st (abs_internal_check fs root file_path rel_path base st href) := by
  simp only [abs_internal_check]
  apply evolves_trans (evolves_log st Severity.WARN
    (rel_path ++ ": Absolute internal link found: " ++ href ++ " -> Use path instead (e.g. /blog)"))
  apply evolves_ite
  · exact evolves_of_eq rfl rfl
  · apply evolves_trans (evolves_log _ Severity.ERROR
      (rel_path ++ ": Dead Link (Internal Absolute): " ++ href))
    exact evolves_of_eq rfl rfl

theorem evolves_external_rel_check (rel_path : String) (st : AuditState) (href : String)
    (relAttr : List String) : Evolves st (external_rel_check rel_path st href relAttr) := by
  simp only [external_rel_check]
  apply evolves_ite
  · exact evolves_of_eq rfl rfl
  · exact evolves_trans (evolves_of_eq rfl rfl) (evolves_log _ Severity.WARN _)

theorem evolves_process_anchor (cfg : AutoConfig) (fs : FS) (root file_path : List String)
    (rel_path : String) (st : AuditState) (a : Anchor) :
    Evolves st (process_anchor cfg fs root file_path rel_path st a) := by
  simp only [process_anchor]
  split
  · exact evolves_refl st
  split
  · exact evolves_refl st
  split
  · split
    · exact evolves_abs_internal_check _ _ _ _ _ _ _
    · exact evolves_external_rel_check _ _ _ _
  · exact evolves_internal_link_check _ _ _ _ _ _

theorem evolves_check_file (cfg : AutoConfig) (fs : FS) (root : List String)
    (st : AuditState) (pg : Page) : Evolves st (check_file cfg fs root st pg) := by
  cases hpg : pg.parsed with
  | none => simp only [check_file, hpg]; exact evolves_refl st
  | some d =>
    simp only [check_file, hpg]
    exact evolves_trans (evolves_h1_check _ _ _)
      (evolves_trans (evolves_schema_check _ _ _)
        (evolves_foldl _ (fun s a => evolves_process_anchor cfg fs root pg.path _ s a) d.anchors _))

theorem evolves_handle_check_result (st : AuditState) (res : Option (String × String × Bool)) :
    Evolves st (handle_check_result st res) := by
  match res with
  | none => exact evolves_refl st
  | some (url, error, should_deduct) =>
    simp only [handle_check_result]
    cases should_deduct with
    | true =>
      simp only [if_pos rfl]
      exact evolves_trans (evolves_log st Severity.ERROR _) (evolves_plain 5 (by norm_num) rfl rfl)
    | false =>
      simp only [Bool.false_eq_true, if_false]
      exact evolves_log st Severity.WARN _

theorem evolves_check_external_links (net : String → ProbeResult) (st : AuditState) :
    Evolves st (check_external_links net st) := by
  unfold check_external_links
  exact evolves_foldl _ (fun s url => evolves_handle_check_result s _) st.external_links st

theorem evolves_orphan_step (cfg : AutoConfig) (root : List String)
    (referenced : List (List String)) (st : AuditState) (f : List String) :
    Evolves st (orphan_step cfg root referenced st f) := by
  simp only [orphan_step]
  split
  · exact evolves_refl st
  split
  · exact evolves_refl st
  split
  · exact evolves_refl st
  · exact evolves_trans (evolves_log st Severity.WARN _) (evolves_of_eq rfl rfl)

theorem evolves_analyze_structure (cfg : AutoConfig) (root : List String)
    (files : List (List String)) (st : AuditState) :
    Evolves st (analyze_structure cfg root files st) := by
  unfold analyze_structure
  exact evolves_foldl _ (fun s f => evolves_orphan_step cfg root _ s f) files st

theorem evolves_run_body (cfg : AutoConfig) (fs : FS) (root : List String)
    (net : String → ProbeResult) (pages : List Page) :
    Evolves initState
      (check_external_links net
        (analyze_structure cfg root (pages.map Page.path)
          (pages.foldl (check_file cfg fs root) initState))) := by
  apply evolves_trans (evolves_foldl _ (fun s pg => evolves_check_file cfg fs root s pg) pages initState)
  apply evolves_trans (evolves_analyze_structure cfg root (pages.map Page.path) _)
  exact evolves_check_external_links net _

/-- Claim C3: for every run, the final reported score equals
`clamp(100 - Σ deductions, 0, 100)` over the deductions incurred during the
run (the ghost ledger records exactly the amount of every score mutation),
and every individual deduction is non-negative. -/
theorem claim_C3 (cfg : AutoConfig) (fs : FS) (root : List String)
    (net : String → ProbeResult) (pages : List Page) :
    (run cfg fs root net pages).score
      = clamp (100 - ((run cfg fs root net pages).deductions).sum) 0 100
    ∧ ∀ d ∈ (run cfg fs root net pages).deductions, 0 ≤ d := by
  obtain ⟨l, hn, hs, hd⟩ := evolves_run_body cfg fs root net pages
  have hrun : run cfg fs root net pages =
      { check_external_links net
          (analyze_structure cfg root (pages.map Page.path)
            (pages.foldl (check_file cfg fs root) initState)) with
        score :=
          max 0 (check_external_links net
            (analyze_structure cfg root (pages.map Page.path)
              (pages.foldl (check_file cfg fs root) initState))).score } := rfl
  have hscore : (run cfg fs root net pages).score = max 0 (applySteps 100 l) := by
    rw [hrun]
    exact congrArg (max 0) hs
  have hded : (run cfg fs root net pages).deductions = l.map stepAmount := by
    rw [hrun]
    simpa [initState] using hd
  have hsum : 0 ≤ (l.map stepAmount).sum := by
    refine List.sum_nonneg ?_
    intro a ha
    obtain ⟨y, hy, rfl⟩ := List.mem_map.1 ha
    exact hn y hy
  constructor
  · rw [hscore, hded, applySteps_max l hn 100]
    unfold clamp
    omega
  · intro d hdm
    rw [hded] at hdm
    obtain ⟨y, hy, rfl⟩ := List.mem_map.1 hdm
    exact hn y hy

/-! ### Claim C5: the path resolver against the spec's tier description -/

/-- Claim C5: for every source page and raw href, `resolve_local_path`
strips query/fragment, resolves root-relative hrefs against the site root
and others against the page's directory, normalizes, and returns the first
match of the four tiers in order with `exists = true`, or the normalized
path with `exists = false` — i.e. it coincides with the spec-side
first-match description. -/
theorem claim_C5 (fs : FS) (root current_file : List String) (link_href : String) :
    resolve_local_path fs root current_file link_href
      = resolve_spec fs root current_file link_href := by
  unfold resolve_local_path resolve_spec spec_candidates
  cases h1 : fs.isfile (target_path root current_file link_href)
    <;> cases h2 : fs.isdir (target_path root current_file link_href)
    <;> cases h3 : fs.isfile (target_path root current_file link_href ++ ["index.html"])
    <;> cases h4 : fs.isfile (appendHtml (target_path root current_file link_href))
    <;> simp [h1, h2, h3, h4]

/-! ### Claim C6: the heading check -/

/-- Claim C6: a page with zero `<h1>` tags gets one ERROR finding and two
deductions — the generic 10-point ERROR deduction from `log` plus the
explicit extra 5 points at the call site; a page with more than one `<h1>`
gets exactly one WARN finding. -/
theorem claim_C6 (st : AuditState) (rel_path : String) (d : PageData) :
    (d.h1_count = 0 →
      h1_check st rel_path d =
        { st with
          score := st.score - 10 - 5
          issues := st.issues ++ [(Severity.ERROR, rel_path ++ ": Missing <h1> tag (-5 pts)")]
          deductions := st.deductions ++ [10, 5] })
    ∧ (1 < d.h1_count →
        h1_check st rel_path d
            = log st Severity.WARN (rel_path ++ ": Multiple <h1> tags found (-2 pts)")
          ∧ (h1_check st rel_path d).issues
              = st.issues ++ [(Severity.WARN, rel_path ++ ": Multiple <h1> tags found (-2 pts)")]) := by
  constructor
  · intro h0
    simp [h1_check, h0, log_ERROR]
  · intro h1
    have hne : ¬ d.h1_count = 0 := by omega
    refine ⟨by simp [h1_check, hne, h1], ?_⟩
    simp [h1_check, hne, h1, log_WARN]

theorem claim_C6_witness :
    ((0 : Nat) = 0
      ∧ h1_check initState "p" (PageData.mk 0 true [])
          = { initState with
              score := initState.score - 10 - 5
              issues := initState.issues ++ [(Severity.ERROR, "p" ++ ": Missing <h1> tag (-5 pts)")]
              deductions := initState.deductions ++ [10, 5] })
    ∧ ((1 : Nat) < 2
      ∧ (h1_check initState "p" (PageData.mk 2 true [])).issues
          = initState.issues ++ [(Severity.WARN, "p" ++ ": Multiple <h1> tags found (-2 pts)")]) :=
  ⟨⟨rfl, (claim_C6 initState "p" (PageData.mk 0 true [])).1 rfl⟩,
   ⟨by norm_num, ((claim_C6 initState "p" (PageData.mk 2 true [])).2 (by norm_num)).2⟩⟩

/-! ### Claim C7: orphan analysis -/

theorem orphanCond_iff (cfg : AutoConfig) (root : List String)
    (refs : List (List String)) (f : List String) :
    orphanCond cfg root refs f = true ↔
      (f ∉ refs
        ∧ f.getLastD "" ≠ "index.html"
        ∧ is_ignored_file cfg (f.getLastD "") = false
        ∧ f ≠ root ++ ["index.html"]) := by
  simp [orphanCond, not_or, and_assoc]

theorem orphan_step_eq (cfg : AutoConfig) (root : List String)
    (refs : List (List String)) (st : AuditState) (f : List String) :
    orphan_step cfg root refs st f =
      if orphanCond cfg root refs f then orphan_apply root st f else st := by
  by_cases hc : orphanCond cfg root refs f = true
  · rw [if_pos hc]
    obtain ⟨hm, hne, hig, hroot⟩ := (orphanCond_iff cfg root refs f).1 hc
    simp only [orphan_step]
    rw [if_neg (by simpa using hm),
      if_neg (by simp only [Bool.or_eq_true, decide_eq_true_eq, not_or]
                 exact ⟨hne, by simp only [Bool.not_eq_true]; exact hig⟩),
      if_neg hroot]
    rfl
  · rw [if_neg hc]
    simp only [orphan_step]
    split
    · rfl
    next h1 =>
      split
      · rfl
      next h2 =>
        split
        · rfl
        next h3 =>
          obtain ⟨hne, hig⟩ : f.getLastD "" ≠ "index.html"
              ∧ is_ignored_file cfg (f.getLastD "") = false := by
            simpa [not_or] using h2
          exact absurd
            ((orphanCond_iff cfg root refs f).2 ⟨by simpa using h1, hne, hig, h3⟩) hc

theorem orphan_apply_score (root : List String) (st : AuditState) (f : List String) :
    (orphan_apply root st f).score = max 0 (st.score - 5) := by
  simp [orphan_apply, log_WARN, warn_amount_orphanMsg]

theorem orphan_apply_orphans (root : List String) (st : AuditState) (f : List String) :
    (orphan_apply root st f).orphan_pages = st.orphan_pages ++ [relPathOf root f] := by
  simp [orphan_apply, log_WARN]

theorem orphan_apply_issues (root : List String) (st : AuditState) (f : List String) :
    (orphan_apply root st f).issues
      = st.issues ++ [(Severity.WARN, orphanMsg (relPathOf root f))] := by
  simp [orphan_apply, log_WARN]

theorem orphan_scan_fields (cfg : AutoConfig) (root : List String) (refs : List (List String)) :
    ∀ (files : List (List String)) (st : AuditState),
      ((files.foldl (orphan_step cfg root refs) st).orphan_pages
          = st.orphan_pages ++ (files.filter (orphanCond cfg root refs)).map (relPathOf root))
      ∧ ((files.foldl (orphan_step cfg root refs) st).issues
          = st.issues ++ (files.filter (orphanCond cfg root refs)).map
              (fun f => (Severity.WARN, orphanMsg (relPathOf root f)))) := by
  intro files
  induction files with
  | nil => intro st; simp
  | cons f fs ih =>
    intro st
    rw [List.foldl_cons, orphan_step_eq]
    by_cases hc : orphanCond cfg root refs f = true
    · rw [if_pos hc]
      obtain ⟨ho, hi⟩ := ih (orphan_apply root st f)
      refine ⟨?_, ?_⟩
      · rw [ho, orphan_apply_orphans]
        simp [List.filter_cons, hc]
      · rw [hi, orphan_apply_issues]
        simp [List.filter_cons, hc]
    · rw [if_neg hc]
      have hc' : orphanCond cfg root refs f = false := by simpa using hc
      obtain ⟨ho, hi⟩ := ih st
      refine ⟨?_, ?_⟩
      · rw [ho]; simp [List.filter_cons, hc']
      · rw [hi]; simp [List.filter_cons, hc']

theorem orphan_scan_score (cfg : AutoConfig) (root : List String) (refs : List (List String)) :
    ∀ (files : List (List String)) (st : AuditState),
      5 * ((files.filter (orphanCond cfg root refs)).length : Int) ≤ st.score →
      (files.foldl (orphan_step cfg root refs) st).score
        = st.score - 5 * ((files.filter (orphanCond cfg root refs)).length : Int) := by
  intro files
  induction files with
  | nil => intro st _; simp
  | cons f fs ih =>
    intro st h
    rw [List.foldl_cons, orphan_step_eq]
    by_cases hc : orphanCond cfg root refs f = true
    · rw [if_pos hc]
      have hfc : (f :: fs).filter (orphanCond cfg root refs)
          = f :: fs.filter (orphanCond cfg root refs) := by
        simp [List.filter_cons, hc]
      rw [hfc] at h ⊢
      simp only [List.length_cons] at h
      push_cast at h
      have hb : 5 * ((fs.filter (orphanCond cfg root refs)).length : Int)
          ≤ (orphan_apply root st f).score := by
        rw [orphan_apply_score]
        omega
      rw [ih (orphan_apply root st f) hb, orphan_apply_score]
      simp only [List.length_cons]
      push_cast
      omega
    · rw [if_neg hc]
      have hc' : orphanCond cfg root refs f = false := by
        simpa using hc
      have hfc : (f :: fs).filter (orphanCond cfg root refs)
          = fs.filter (orphanCond cfg root refs) := by
        simp [List.filter_cons, hc']
      rw [hfc] at h ⊢
      exact ih st h

/-- Claim C7: after inspection, a page lands in the orphan list iff it is
not the target of any link edge, its filename is not the canonical index
name, it is not ignore-listed, and it is not the root index; each orphan
contributes exactly one WARN finding with the orphan-specific 5-point
deduction; link targets are never orphans. -/
theorem claim_C7 (cfg : AutoConfig) (root : List String) (files : List (List String))
    (st : AuditState) :
    ((analyze_structure cfg root files st).orphan_pages
        = st.orphan_pages
          ++ (files.filter (orphanCond cfg root (st.graph.map Prod.fst))).map (relPathOf root))
    ∧ ((analyze_structure cfg root files st).issues
        = st.issues
          ++ (files.filter (orphanCond cfg root (st.graph.map Prod.fst))).map
              (fun f => (Severity.WARN, orphanMsg (relPathOf root f))))
    ∧ (∀ f, orphanCond cfg root (st.graph.map Prod.fst) f = true ↔
        (f ∉ st.graph.map Prod.fst
          ∧ f.getLastD "" ≠ "index.html"
          ∧ is_ignored_file cfg (f.getLastD "") = false
          ∧ f ≠ root ++ ["index.html"]))
    ∧ (∀ f, f ∈ st.graph.map Prod.fst →
        orphanCond cfg root (st.graph.map Prod.fst) f = false)
    ∧ (5 * ((files.filter (orphanCond cfg root (st.graph.map Prod.fst))).length : Int) ≤ st.score →
        (analyze_structure cfg root files st).score
          = st.score
            - 5 * ((files.filter (orphanCond cfg root (st.graph.map Prod.fst))).length : Int)) := by
  obtain ⟨ho, hi⟩ := orphan_scan_fields cfg root (st.graph.map Prod.fst) files st
  refine ⟨ho, hi, orphanCond_iff cfg root _, ?_, ?_⟩
  · intro f hf
    cases hb : orphanCond cfg root (st.graph.map Prod.fst) f with
    | false => rfl
    | true => exact absurd hf ((orphanCond_iff cfg root _ f).1 hb).1
  · intro hbound
    exact orphan_scan_score cfg root (st.graph.map Prod.fst) files st hbound

/-! ### Claim C9: parse failures are isolated -/

/-- Claim C9: a page whose parsing fails leaves the audit state exactly as
it was — no finding is appended, no deduction is made — and the fold over
the remaining pages proceeds unchanged. -/
theorem claim_C9 (cfg : AutoConfig) (fs : FS) (root : List String) (st : AuditState)
    (pg : Page) (h : pg.parsed = none) :
    check_file cfg fs root st pg = st
    ∧ ∀ rest : List Page,
        (pg :: rest).foldl (check_file cfg fs root) st
          = rest.foldl (check_file cfg fs root) st := by
  have h1 : check_file cfg fs root st pg = st := by
    simp [check_file, h]
  exact ⟨h1, fun rest => by simp [List.foldl_cons, h1]⟩

theorem claim_C9_witness :
    (Page.mk ["site", "broken.html"] none).parsed = none
    ∧ check_file cfgCE fsCE rootCE initState (Page.mk ["site", "broken.html"] none) = initState
    ∧ ([Page.mk ["site", "broken.html"] none, noH1Page "a1.html"].foldl
          (check_file cfgCE fsCE rootCE) initState
        = [noH1Page "a1.html"].foldl (check_file cfgCE fsCE rootCE) initState) :=
  ⟨rfl, (claim_C9 cfgCE fsCE rootCE initState (Page.mk ["site", "broken.html"] none) rfl).1,
    (claim_C9 cfgCE fsCE rootCE initState (Page.mk ["site", "broken.html"] none) rfl).2
      [noH1Page "a1.html"]⟩

theorem claim_C7_witness :
    (5 * (([["site", "b.html"]].filter
          (orphanCond cfgCE rootCE (initState.graph.map Prod.fst))).length : Int)
        ≤ initState.score)
    ∧ (analyze_structure cfgCE rootCE [["site", "b.html"]] initState).score
        = initState.score
          - 5 * (([["site", "b.html"]].filter
              (orphanCond cfgCE rootCE (initState.graph.map Prod.fst))).length : Int) :=
  ⟨by decide, (claim_C7 cfgCE rootCE [["site", "b.html"]] initState).2.2.2.2 (by decide)⟩

/-! ### Claim C1: broken external links -/

/-- Claim C1 (counterexample): with a fresh state holding one external URL
whose HEAD probe answers 404, the run's external check leaves the score at
85, i.e. the finding costs 15 points, not the 5 the claim states. -/
theorem claim_C1_cex :
    (check_external_links netStatus404 stBroken).score = 85
    ∧ ¬ (check_external_links netStatus404 stBroken).score = stBroken.score - 5 := by
  refine ⟨by decide, by decide⟩

/-- Claim C1 (amended): a probe with HTTP status ≥ 400 produces exactly one
ERROR finding `Broken External Link` and a total deduction of 15 points:
the generic 10-point ERROR deduction applied by `log` plus the explicit
extra 5-point deduction at the call site. -/
theorem claim_C1_amended (st : AuditState) (url : String) (code : Nat) (h : 400 ≤ code) :
    handle_check_result st (check_url url (ProbeResult.status code)) =
      { st with
        score := st.score - 10 - 5
        issues := st.issues
          ++ [(Severity.ERROR,
                "Broken External Link: " ++ url ++ " (" ++ ("Status " ++ Nat.repr code)
                  ++ ") (-5 pts)")]
        deductions := st.deductions ++ [10, 5] } := by
  simp [check_url, h, handle_check_result, log_ERROR]

theorem claim_C1_witness :
    (400 ≤ 404)
    ∧ handle_check_result initState (check_url "https://example.org/x" (ProbeResult.status 404)) =
        { initState with
          score := initState.score - 10 - 5
          issues := initState.issues
            ++ [(Severity.ERROR,
                  "Broken External Link: " ++ "https://example.org/x" ++ " ("
                    ++ ("Status " ++ Nat.repr 404) ++ ") (-5 pts)")]
          deductions := initState.deductions ++ [10, 5] } :=
  ⟨by norm_num, claim_C1_amended initState "https://example.org/x" 404 (by norm_num)⟩

/-! ### Claim C2: unreachable external links -/

/-- Claim C2 (counterexample): a single external URL that times out leaves
the score at 98, not 100 — the WARN finding still costs the generic WARN
deduction of 2 points. -/
theorem claim_C2_cex :
    (check_external_links netTimeout stUnreachable).score = 98
    ∧ ¬ (check_external_links netTimeout stUnreachable).score = stUnreachable.score := by
  refine ⟨by decide, by decide⟩

/-- Claim C2 (amended): a probe that times out, fails to connect, or raises
any other exception produces a WARN finding and skips the broken-link
5-point deduction, but the WARN goes through the generic WARN rule, which
deducts 2 points (clamped at 0) instead of leaving the score untouched. -/
theorem claim_C2_amended (st : AuditState) (url e : String) :
    (handle_check_result st (check_url url ProbeResult.timeout)
        = log st Severity.WARN
            ("External Link Unreachable: " ++ url ++ " (" ++ "Timeout (Network Limit?)"
              ++ ") - Skipped deduction (Likely Network Issue)"))
    ∧ (handle_check_result st (check_url url ProbeResult.connectionError)
        = log st Severity.WARN
            ("External Link Unreachable: " ++ url ++ " (" ++ "Connection Error (Network Limit?)"
              ++ ") - Skipped deduction (Likely Network Issue)"))
    ∧ (handle_check_result st (check_url url (ProbeResult.otherError e))
        = log st Severity.WARN
            ("External Link Unreachable: " ++ url ++ " (" ++ e
              ++ ") - Skipped deduction (Likely Network Issue)"))
    ∧ (∀ m : String, strContains m "Orphan" = false →
        (log st Severity.WARN m).score = max 0 (st.score - 2)
        ∧ (log st Severity.WARN m).issues = st.issues ++ [(Severity.WARN, m)]
        ∧ (log st Severity.WARN m).deductions = st.deductions ++ [2]) := by
  refine ⟨rfl, rfl, rfl, ?_⟩
  intro m hm
  refine ⟨?_, ?_, ?_⟩ <;> simp [log_WARN, warn_amount, hm]

theorem claim_C2_witness :
    (handle_check_result initState (check_url "https://x.example" ProbeResult.timeout)
        = log initState Severity.WARN
            ("External Link Unreachable: " ++ "https://x.example" ++ " ("
              ++ "Timeout (Network Limit?)" ++ ") - Skipped deduction (Likely Network Issue)"))
    ∧ strContains "m" "Orphan" = false
    ∧ (log initState Severity.WARN "m").score = max 0 (initState.score - 2) :=
  ⟨(claim_C2_amended initState "https://x.example" "").1, by decide,
    (((claim_C2_amended initState "https://x.example" "").2.2.2) "m" (by decide)).1⟩

/-! ### Claim C4: score monotonicity and clamping -/

/-- Claim C4 (counterexample): a concrete run prefix — six pages missing
both `<h1>` and schema drive the score to 0, the clamp firing inside the
run at a WARN emission; on the seventh page the heading ERROR takes the
score to −15 and the following schema WARN raises it back to 0, so the
score is not monotonically non-increasing and the clamp is not reserved
for final reporting. -/
theorem claim_C4_cex :
    st6CE.score = 0
    ∧ st7aCE.score = -15
    ∧ st7bCE.score = 0
    ∧ st7aCE.score < st7bCE.score
    ∧ check_file cfgCE fsCE rootCE st6CE (Page.mk ["site", "a7.html"] (some dCE)) = st7bCE := by
  refine ⟨by decide, by decide, by decide, by decide, by decide⟩

/-- Claim C4 (amended): from a non-negative score every finding emission is
non-increasing; the ERROR deduction is unclamped, while the WARN rule
clamps to 0 at each WARN emission — in addition to the final clamp in
`run` — so a WARN emitted while the score is negative raises it to 0. -/
theorem claim_C4_amended (st : AuditState) (m : String) (t : Severity) (h : 0 ≤ st.score) :
    (log st t m).score ≤ st.score
    ∧ (log st Severity.ERROR m).score = st.score - 10
    ∧ (log st Severity.WARN m).score = max 0 (st.score - warn_amount m)
    ∧ (∀ cfg fs root net pages,
        run cfg fs root net pages =
          { check_external_links net
              (analyze_structure cfg root (pages.map Page.path)
                (pages.foldl (check_file cfg fs root) initState)) with
            score :=
              max 0 (check_external_links net
                (analyze_structure cfg root (pages.map Page.path)
                  (pages.foldl (check_file cfg fs root) initState))).score }) := by
  refine ⟨?_, by rw [log_ERROR], by rw [log_WARN], fun _ _ _ _ _ => rfl⟩
  cases t with
  | ERROR => simp [log_ERROR]
  | WARN =>
    have hw := warn_amount_nonneg m
    have hs : (log st Severity.WARN m).score = max 0 (st.score - warn_amount m) := by
      rw [log_WARN]
    rw [hs]
    omega
  | SUCCESS => rw [log_SUCCESS]
  | INFO => rw [log_INFO]

theorem claim_C4_witness :
    (0 : Int) ≤ initState.score
    ∧ (log initState Severity.ERROR "x").score ≤ initState.score :=
  ⟨by decide, (claim_C4_amended initState "x" Severity.ERROR (by decide)).1⟩

/-! ### Claim C8: absolute-internal links -/

theorem log_issues (st : AuditState) (t : Severity) (m : String)
    (h : t = Severity.ERROR ∨ t = Severity.WARN) :
    (log st t m).issues = st.issues ++ [(t, m)] := by
  rcases h with h | h <;> subst h
  · rw [log_ERROR]
  · rw [log_WARN]

/-- Claim C8: an anchor whose stripped href is absolute http(s) and starts
with the configured base URL is dispatched to the absolute-internal branch:
one WARN about the style is emitted, the href with the base stripped (given
a leading slash when missing) is re-resolved, and on success a link edge is
recorded with no dead-link ERROR, while on failure a dead-link ERROR is
emitted and the original href joins the dead-link list. -/
theorem claim_C8 (cfg : AutoConfig) (fs : FS) (root file_path : List String)
    (rel_path : String) (st : AuditState) (a : Anchor) (base href pp : String)
    (hstrip : pyStrip a.href = href)
    (hbase : cfg.base_url = some base)
    (hb : base ≠ "")
    (hne : href ≠ "")
    (hig : is_ignored_url cfg href = false)
    (hhttp : strStartsWith href "http://" = true ∨ strStartsWith href "https://" = true)
    (hmatch : strStartsWith href base = true)
    (hpp : pp = (if strStartsWith (replaceFirst href base) "/" then replaceFirst href base
                 else "/" ++ replaceFirst href base)) :
    (process_anchor cfg fs root file_path rel_path st a
        = abs_internal_check fs root file_path rel_path base st href)
    ∧ ((resolve_local_path fs root file_path pp).2 = true →
        (process_anchor cfg fs root file_path rel_path st a).issues
            = st.issues ++ [(Severity.WARN,
                rel_path ++ ": Absolute internal link found: " ++ href
                  ++ " -> Use path instead (e.g. /blog)")]
        ∧ (process_anchor cfg fs root file_path rel_path st a).graph
            = st.graph ++ [((resolve_local_path fs root file_path pp).1, file_path)]
        ∧ (process_anchor cfg fs root file_path rel_path st a).dead_links = st.dead_links)
    ∧ ((resolve_local_path fs root file_path pp).2 = false →
        (process_anchor cfg fs root file_path rel_path st a).issues
            = st.issues ++ [(Severity.WARN,
                rel_path ++ ": Absolute internal link found: " ++ href
                  ++ " -> Use path instead (e.g. /blog)"),
              (Severity.ERROR, rel_path ++ ": Dead Link (Internal Absolute): " ++ href)]
        ∧ (process_anchor cfg fs root file_path rel_path st a).dead_links
            = st.dead_links ++ [href]
        ∧ (process_anchor cfg fs root file_path rel_path st a).graph = st.graph) := by
  subst hstrip
  subst hpp
  have hdisp : process_anchor cfg fs root file_path rel_path st a
      = abs_internal_check fs root file_path rel_path base st (pyStrip a.href) := by
    simp only [process_anchor]
    rw [if_neg hne, if_neg (by simp [hig]),
      if_pos (by rcases hhttp with h | h <;> simp [h]),
      if_pos (by simp [base_matches, hbase, hb, hmatch]), hbase]
    rfl
  refine ⟨hdisp, ?_, ?_⟩
  · intro hr
    rw [hdisp]
    simp only [abs_internal_check, hr, if_true]
    refine ⟨?_, ?_, ?_⟩
    · rw [log_WARN]
    · rw [log_graph]
    · rw [log_dead_links]
  · intro hr
    rw [hdisp]
    simp only [abs_internal_check, hr, Bool.false_eq_true, if_false]
    refine ⟨?_, ?_, ?_⟩
    · rw [log_issues _ Severity.ERROR _ (Or.inl rfl), log_issues _ Severity.WARN _ (Or.inr rfl)]
      simp
    · rw [log_dead_links, log_dead_links]
    · rw [log_graph, log_graph]

theorem claim_C8_witness :
    (pyStrip (Anchor.mk "https://example.com/blog/post.html" []).href
        = "https://example.com/blog/post.html")
    ∧ (resolve_local_path fsCE rootCE ["site", "index.html"] "/blog/post.html").2 = true
    ∧ (process_anchor cfgCE fsCE rootCE ["site", "index.html"] "index.html" initState
          (Anchor.mk "https://example.com/blog/post.html" [])).graph
        = initState.graph
          ++ [((resolve_local_path fsCE rootCE ["site", "index.html"] "/blog/post.html").1,
                ["site", "index.html"])] := by
  refine ⟨by decide, by decide, ?_⟩
  have h := ((claim_C8 cfgCE fsCE rootCE ["site", "index.html"] "index.html" initState
      (Anchor.mk "https://example.com/blog/post.html" []) "https://example.com"
      "https://example.com/blog/post.html" "/blog/post.html"
      (by decide) rfl (by decide) (by decide) (by decide)
      (Or.inr (by decide)) (by decide) (by decide)).2.1 (by decide)).2.1
  exact h

/-! ### Claim C10: link edges count occurrences, not distinct sources -/

theorem warn_relative_graph (rel_path : String) (st : AuditState) (href : String) :
    (warn_relative rel_path st href).graph = st.graph := by
  unfold warn_relative
  split
  · rfl
  · rw [log_graph]

theorem warn_extension_graph (rel_path : String) (st : AuditState) (href : String) :
    (warn_extension rel_path st href).graph = st.graph := by
  unfold warn_extension
  split
  · rw [log_graph]
  · rfl

theorem process_anchor_internal_graph (cfg : AutoConfig) (fs : FS)
    (root file_path : List String) (rel_path : String) (a : Anchor) (t : List String)
    (hne : pyStrip a.href ≠ "")
    (hig : is_ignored_url cfg (pyStrip a.href) = false)
    (h1 : strStartsWith (pyStrip a.href) "http://" = false)
    (h2 : strStartsWith (pyStrip a.href) "https://" = false)
    (hres : resolve_local_path fs root file_path (pyStrip a.href) = (t, true)) :
    ∀ st : AuditState,
      (process_anchor cfg fs root file_path rel_path st a).graph = st.graph ++ [(t, file_path)] := by
  intro st
  simp only [process_anchor]
  rw [if_neg hne, if_neg (by simp [hig]), if_neg (by simp [h1, h2])]
  simp only [internal_link_check, hres]
  rw [warn_extension_graph, warn_relative_graph]
  simp

/-- Claim C10: every anchor occurrence whose href resolves to an existing
file appends one `(target, source)` edge, with no deduplication — the same
page linking the same target `n` times contributes `n` edges, so the
inbound-link count of the target counts occurrences. -/
theorem claim_C10 (cfg : AutoConfig) (fs : FS) (root file_path : List String)
    (rel_path : String) (st : AuditState) (a : Anchor) (t : List String)
    (hne : pyStrip a.href ≠ "")
    (hig : is_ignored_url cfg (pyStrip a.href) = false)
    (h1 : strStartsWith (pyStrip a.href) "http://" = false)
    (h2 : strStartsWith (pyStrip a.href) "https://" = false)
    (hres : resolve_local_path fs root file_path (pyStrip a.href) = (t, true)) :
    ((process_anchor cfg fs root file_path rel_path st a).graph = st.graph ++ [(t, file_path)])
    ∧ (∀ n : Nat,
        ((List.replicate n a).foldl (process_anchor cfg fs root file_path rel_path) st).graph
          = st.graph ++ List.replicate n (t, file_path))
    ∧ (∀ n : Nat,
        inbound_count
            ((List.replicate n a).foldl (process_anchor cfg fs root file_path rel_path) st) t
          = inbound_count st t + n) := by
  have hstep := process_anchor_internal_graph cfg fs root file_path rel_path a t
    hne hig h1 h2 hres
  have hrep : ∀ (n : Nat) (s : AuditState),
      ((List.replicate n a).foldl (process_anchor cfg fs root file_path rel_path) s).graph
        = s.graph ++ List.replicate n (t, file_path) := by
    intro n
    induction n with
    | zero => intro s; simp
    | succ k ih =>
      intro s
      rw [List.replicate_succ, List.foldl_cons, ih, hstep, List.replicate_succ]
      simp
  have hcount : ∀ m : Nat,
      ((List.replicate m (t, file_path)).filter
          (fun e : List String × List String => e.1 = t)).length = m := by
    intro m
    induction m with
    | zero => simp
    | succ k ih => simp [List.replicate_succ, List.filter_cons, ih]
  refine ⟨hstep st, fun n => hrep n st, fun n => ?_⟩
  rw [inbound_count, inbound_count, hrep n st, List.filter_append, List.length_append,
    hcount n]

theorem claim_C10_witness :
    (pyStrip (Anchor.mk "/blog/post" []).href ≠ ""
      ∧ is_ignored_url cfgCE (pyStrip (Anchor.mk "/blog/post" []).href) = false
      ∧ strStartsWith (pyStrip (Anchor.mk "/blog/post" []).href) "http://" = false
      ∧ strStartsWith (pyStrip (Anchor.mk "/blog/post" []).href) "https://" = false
      ∧ resolve_local_path fsCE rootCE ["site", "index.html"]
          (pyStrip (Anchor.mk "/blog/post" []).href) = (["site", "blog", "post.html"], true))
    ∧ inbound_count
        ((List.replicate 2 (Anchor.mk "/blog/post" [])).foldl
          (process_anchor cfgCE fsCE rootCE ["site", "index.html"] "index.html") initState)
        ["site", "blog", "post.html"]
      = inbound_count initState ["site", "blog", "post.html"] + 2 :=
  ⟨⟨by decide, by decide, by decide, by decide, by decide⟩,
    (claim_C10 cfgCE fsCE rootCE ["site", "index.html"] "index.html" initState
      (Anchor.mk "/blog/post" []) ["site", "blog", "post.html"]
      (by decide) (by decide) (by decide) (by decide) (by decide)).2.2 2⟩

end Audit
